import Mathlib

/-!
Verification of the computer-vision-poc-2 repository against its
natural-language specification.  Each section embeds one piece of the
source (the React frontend services layer, the integration guide code
samples, and the Cloudflare worker routes) as executable Lean
definitions, then settles the frozen claims about it.
-/

namespace Frontend

/-! ### The frontend services layer (src/react-app/services/api.ts)

The `request` helper wraps `fetch`.  A resolved `fetch` promise is
modelled by `FetchResponse`: the numeric status and the body text (the
value `res.text()` resolves to; for 2xx responses `res.json()` is
modelled abstractly by returning the same body text, since no claim
inspects the parsed success payload).  A rejected `fetch` promise
(connection-level failure) propagates out of `request` unhandled and is
outside `FetchResponse`. -/

structure FetchResponse where
  status : Nat
  bodyText : String
deriving DecidableEq, Repr

/-- `res.ok` per the fetch specification: status in the range 200-299. -/
def resOk (r : FetchResponse) : Bool :=
  200 ≤ r.status && r.status ≤ 299

/-- The `ApiError` class thrown by the services layer: carries the HTTP
status and the response body text as the message. -/
structure ApiError where
  status : Nat
  message : String
deriving DecidableEq, Repr

/-- The `request` helper after `fetch` resolves: if `!res.ok` it throws
`new ApiError(res.status, message)` where `message` is the body text
(the `.catch` fallback for a rejected `res.text()` is not modelled:
reading the body of a resolved response succeeds); otherwise it returns
`res.json()`. -/
def request (res : FetchResponse) : Except ApiError String :=
  if resOk res then Except.ok res.bodyText
  else Except.error ⟨res.status, res.bodyText⟩

/-- Whether an outcome of `request` is a thrown `ApiError`. -/
def throwsError (r : Except ApiError String) : Bool :=
  match r with
  | Except.error _ => true
  | Except.ok _ => false

/-! ### Header construction in `request`

The fetch init is the object literal

  `\x7b headers: \x7b "Content-Type": "application/json", ...options?.headers \x7d, ...options \x7d`

A JS object literal is modelled as an insertion-ordered association
list with unique keys; spreading an object into a literal overwrites
existing keys in place and appends new keys at the end. -/

abbrev Obj := List (String × String)

/-- Setting one property on a JS object: overwrite in place if the key
exists, else append. -/
def objSet (m : Obj) (k v : String) : Obj :=
  if m.any (fun p => p.1 == k) then m.map (fun p => if p.1 == k then (k, v) else p)
  else m ++ [(k, v)]

/-- Spreading `extra` into an object literal that already holds `base`. -/
def objSpread (base extra : Obj) : Obj :=
  extra.foldl (fun acc p => objSet acc p.1 p.2) base

/-- The inline default header object of `request`. -/
def defaultHeaders : Obj := [("Content-Type", "application/json")]

/-- The slice of `RequestInit` that decides the dispatched headers: the
optional `headers` property.  `headers = none` models an options object
without a `headers` key; the other `RequestInit` fields (method, body)
do not interact with the headers computation. -/
structure RequestOptions where
  headers : Option Obj
deriving DecidableEq, Repr

/-- The `headers` value of the fetch init built by `request`: the inner
literal merges the default `Content-Type` with `options?.headers`, and
the subsequent `...options` spread then replaces the whole `headers`
property whenever `options` itself carries a `headers` key. -/
def dispatchedHeaders (options : Option RequestOptions) : Obj :=
  let merged := objSpread defaultHeaders ((options.bind fun o => o.headers).getD [])
  match options with
  | none => merged
  | some o =>
    match o.headers with
    | none => merged
    | some hs => hs

/-- The header object literal used by every code sample of the
integration guide (`makeRequest`, `chatWithAssistant`, `streamChat`):
credentials first, then `Content-Type`. -/
def guideHeaders (apiKey tenantId : String) : Obj :=
  [("x-api-key", apiKey), ("x-tenant-id", tenantId), ("Content-Type", "application/json")]

end Frontend

namespace Guide

/-! ### The retry loop of the integration guide (goto_discovery_integration_guide.md,
Error Handling Template, `makeRequest`)

The loop runs `while (attempt < maxRetries)` with `maxRetries = 3` and
`attempt` starting at 0.  One `fetch` per iteration; its outcome is
either a resolved response or a rejected promise (connection-level
failure).  A non-ok response with status >= 500 increments `attempt`,
sleeps `Math.pow(2, attempt) * 1000` ms (the incremented value) and
continues; a 401/403 throws `Authentication failed` and a remaining 4xx
throws the parsed `error.error` field - both throws land in the
enclosing `catch`, which rethrows only when `attempt >= maxRetries - 1`
and otherwise increments, sleeps the same schedule, and iterates.  When
the `while` condition fails the function falls off the end, returning
`undefined`. -/

/-- Outcome of one `fetch` call: a resolved response (status plus the
`error` field of its JSON body, used only on the non-retryable 4xx
path), or a rejected promise carrying the error message. -/
inductive FetchOutcome where
  | response (status : Nat) (errorField : Option String)
  | networkError (msg : String)
deriving DecidableEq, Repr

/-- How a `makeRequest` invocation ends: a returned `response.json()`
value (carrying the status of the successful response), a thrown error
message, or the implicit `undefined` return after the loop exhausts. -/
inductive RunResult where
  | success (status : Nat)
  | thrown (msg : String)
  | undefinedReturn
deriving DecidableEq, Repr

/-- A complete run: the result, the sleep durations awaited in order
(ms), and the number of `fetch` calls issued. -/
structure Run where
  result : RunResult
  delays : List Nat
  calls : Nat
deriving DecidableEq, Repr

/-- `sleep(Math.pow(2, attempt) * 1000)`. -/
def sleepMs (attempt : Nat) : Nat := 2 ^ attempt * 1000

/-- `new Error(error.error || "Request failed")` on the non-retryable
4xx path: JS `||` treats the empty string as falsy. -/
def errMsg (errorField : Option String) : String :=
  match errorField with
  | some s => if s = "" then "Request failed" else s
  | none => "Request failed"

/-- `response.ok`: status in 200-299. -/
def respOk (status : Nat) : Bool := 200 ≤ status && status ≤ 299

/-- One step of the `while` loop, recursing on explicit fuel.  The
`attempt` counter increases by exactly one on every recursive call, so
any fuel above `maxRetries` makes the fuel case unreachable: the loop
always exits through the `while` condition, a `return`, or a rethrow. -/
def makeRequestGo (transport : Nat → FetchOutcome) (maxRetries : Nat) :
    Nat → Nat → Nat → List Nat → Run
  | 0, _, calls, delays => ⟨RunResult.undefinedReturn, delays.reverse, calls⟩
  | fuel + 1, attempt, calls, delays =>
    if attempt < maxRetries then
      match transport calls with
      | FetchOutcome.response status errorField =>
        if respOk status then ⟨RunResult.success status, delays.reverse, calls + 1⟩
        else if 500 ≤ status then
          makeRequestGo transport maxRetries fuel (attempt + 1) (calls + 1)
            (sleepMs (attempt + 1) :: delays)
        else
          let msg := if status == 401 || status == 403 then "Authentication failed"
                     else errMsg errorField
          if maxRetries - 1 ≤ attempt then ⟨RunResult.thrown msg, delays.reverse, calls + 1⟩
          else makeRequestGo transport maxRetries fuel (attempt + 1) (calls + 1)
            (sleepMs (attempt + 1) :: delays)
      | FetchOutcome.networkError msg =>
        if maxRetries - 1 ≤ attempt then ⟨RunResult.thrown msg, delays.reverse, calls + 1⟩
        else makeRequestGo transport maxRetries fuel (attempt + 1) (calls + 1)
          (sleepMs (attempt + 1) :: delays)
    else ⟨RunResult.undefinedReturn, delays.reverse, calls⟩

/-- `makeRequest` with its literal constants: `maxRetries = 3`,
`attempt = 0`.  The transport maps the index of each issued `fetch`
call to its outcome. -/
def makeRequest (transport : Nat → FetchOutcome) : Run :=
  makeRequestGo transport 3 4 0 0 []

/-- Fake transport: 503 on the first two calls, 200 afterwards (the
scenario named by the spec). -/
def t503then200 : Nat → FetchOutcome := fun n =>
  if n < 2 then FetchOutcome.response 503 none else FetchOutcome.response 200 none

/-- Fake transport: 503 on every call. -/
def tAlways503 : Nat → FetchOutcome := fun _ => FetchOutcome.response 503 none

/-- Fake transport: 401 on every call. -/
def tAlways401 : Nat → FetchOutcome := fun _ => FetchOutcome.response 401 none

/-- Fake transport: 400 with an `error` body field on every call. -/
def tAlways400 : Nat → FetchOutcome := fun _ =>
  FetchOutcome.response 400 (some "Invalid request body")

end Guide

namespace Sse

/-! ### The streaming-chat decode loop of the integration guide
(`streamChat`, JavaScript (Streaming Chat) sample)

Per network read the sample decodes the bytes, splits the decoded text
on newlines, and for every line starting with `data: ` calls
`JSON.parse` on the remainder and dispatches on the `type` field.  No
state is carried from one read to the next apart from what has already
been written out, so the decoding of a read never sees bytes of an
earlier or later read.

`JSON.parse` is modelled for flat objects whose keys and values are
strings without escape sequences - the only payload shape the
streaming endpoint emits (`connected` / `response-chunk` / `end` /
`error` frames); on any other or truncated input the model fails,
matching the exception `JSON.parse` raises there. -/

/-- The opening brace character. -/
def lbrace : Char := Char.ofNat 123

/-- The closing brace character. -/
def rbrace : Char := Char.ofNat 125

/-- Skip leading JSON whitespace (the space character suffices for the
frames the endpoint emits). -/
def skipWs : List Char → List Char
  | [] => []
  | c :: cs => if c = ' ' then skipWs cs else c :: cs

/-- Read the remainder of a JSON string after its opening quote:
returns the characters before the closing quote and the input after
it, or fails when the input ends before a closing quote. -/
def parseStringAux : List Char → Option (List Char × List Char)
  | [] => none
  | c :: cs =>
    if c = '"' then some ([], cs)
    else
      match parseStringAux cs with
      | some (s, rest) => some (c :: s, rest)
      | none => none

/-- Parse one or more `"key": "value"` members separated by commas,
returning the members and the unconsumed input (which should start
with the closing brace).  Fuel bounds the recursion; each member
consumes at least one character, so the length of the input suffices. -/
def parseMembers : Nat → List Char → Option (List (String × String) × List Char)
  | 0, _ => none
  | fuel + 1, input =>
    match skipWs input with
    | [] => none
    | c :: cs =>
      if c = '"' then
        match parseStringAux cs with
        | none => none
        | some (k, rest) =>
          match skipWs rest with
          | ':' :: rest2 =>
            match skipWs rest2 with
            | [] => none
            | c2 :: rest3 =>
              if c2 = '"' then
                match parseStringAux rest3 with
                | none => none
                | some (v, rest4) =>
                  match skipWs rest4 with
                  | ',' :: rest5 =>
                    match parseMembers fuel rest5 with
                    | none => none
                    | some (ms, rest6) => some ((String.mk k, String.mk v) :: ms, rest6)
                  | other => some ([(String.mk k, String.mk v)], other)
              else none
          | _ => none
      else none

/-- `JSON.parse` restricted to flat string-valued objects: `none`
models a thrown `SyntaxError`. -/
def jsonParseFlat (s : List Char) : Option (List (String × String)) :=
  match skipWs s with
  | [] => none
  | c :: rest =>
    if c = lbrace then
      match skipWs rest with
      | [] => none
      | c2 :: rest2 =>
        if c2 = rbrace then (if skipWs rest2 = [] then some [] else none)
        else
          match parseMembers (s.length + 1) (c2 :: rest2) with
          | none => none
          | some (ms, rest3) =>
            match skipWs rest3 with
            | [] => none
            | c3 :: rest4 =>
              if c3 = rbrace then (if skipWs rest4 = [] then some ms else none)
              else none
    else none

/-- Field access `obj.k` on a parsed object. -/
def lookupField (obj : List (String × String)) (k : String) : Option String :=
  (obj.find? (fun p => p.1 == k)).map Prod.snd

/-- The events the sample loop acts on: `process.stdout.write(data.data)`
for `response-chunk`, the end-of-stream log for `end`, and
`console.error(data.message)` for `error`.  A missing field prints as
the string `undefined` in JS. -/
inductive StreamEvent where
  | responseChunk (data : String)
  | streamEnd
  | streamError (message : String)
deriving DecidableEq, Repr

/-- What processing one line does. -/
inductive LineResult where
  | noData
  | emit (e : StreamEvent)
  | silent
  | parseThrow
deriving DecidableEq, Repr

/-- `line.startsWith(dataMarker)` together with `line.slice(6)`: when
the line carries the six-character `data: ` marker, return what
follows it. -/
def dropMarker : List Char → Option (List Char)
  | 'd' :: 'a' :: 't' :: 'a' :: ':' :: ' ' :: rest => some rest
  | _ => none

/-- One line of one read: lines without the marker are skipped; marked
lines are `JSON.parse`d (throwing on failure) and dispatched on `type`;
a `type` matching no branch (for instance `connected`) does nothing. -/
def processLine (line : List Char) : LineResult :=
  match dropMarker line with
  | none => LineResult.noData
  | some payload =>
    match jsonParseFlat payload with
    | none => LineResult.parseThrow
    | some obj =>
      match lookupField obj "type" with
      | some "response-chunk" =>
        LineResult.emit (StreamEvent.responseChunk ((lookupField obj "data").getD "undefined"))
      | some "end" => LineResult.emit StreamEvent.streamEnd
      | some "error" =>
        LineResult.emit (StreamEvent.streamError ((lookupField obj "message").getD "undefined"))
      | _ => LineResult.silent

/-- Decoder state: events dispatched so far and whether a parse
exception has aborted the loop. -/
structure DecodeState where
  events : List StreamEvent
  threw : Bool
deriving DecidableEq, Repr

/-- Process one line: once an exception has been thrown the loop is
over and nothing further runs. -/
def stepLine (st : DecodeState) (line : List Char) : DecodeState :=
  if st.threw then st
  else
    match processLine line with
    | LineResult.emit e => ⟨st.events ++ [e], false⟩
    | LineResult.parseThrow => ⟨st.events, true⟩
    | _ => st

/-- The newline split `chunk.split` performs, keeping empty segments
exactly as JS does. -/
def splitOnNl : List Char → List (List Char)
  | [] => [[]]
  | c :: cs =>
    if c = '\n' then [] :: splitOnNl cs
    else
      match splitOnNl cs with
      | seg :: rest => (c :: seg) :: rest
      | [] => [[c]]

/-- Process one network read: split the decoded text on newlines, then
each line in order. -/
def decodeChunkFrom (st : DecodeState) (chunk : String) : DecodeState :=
  (splitOnNl chunk.data).foldl stepLine st

/-- The whole read loop of `streamChat` over a sequence of network
reads. -/
def streamChatDecode (chunks : List String) : DecodeState :=
  chunks.foldl decodeChunkFrom ⟨[], false⟩

/-- A complete SSE `end` frame as the stream carries it. -/
def sseEndFrame : String := "data: \x7b\"type\": \"end\"\x7d\n\n"

/-- First fragment of `sseEndFrame` when the network delivers it split
after four bytes (inside the `data: ` marker). -/
def endFragA : String := "data"

/-- Second fragment of the four-byte split. -/
def endFragB : String := ": \x7b\"type\": \"end\"\x7d\n\n"

/-- First fragment of `sseEndFrame` when the split falls after ten
bytes (inside the JSON payload). -/
def endFragC : String := "data: \x7b\"ty"

/-- Second fragment of the ten-byte split. -/
def endFragD : String := "pe\": \"end\"\x7d\n\n"

end Sse

namespace NanoBanana

/-! ### The worker route POST /api/nano-banana/generate
(src/worker/nano-banana.ts)

The handler body sits in one `try`; the `catch` returns status 500 with
`\x7b error: "Failed to generate image", details \x7d`.  The parsed
form is modelled directly (`formData.get` yields `null`, a string, or a
`File`); exceptions of the remainder of the `try` block - the buffer
conversions and the Gemini call - are the `throws` outcome below. -/

/-- A `File` as the handler sees it: its `type` property (possibly the
empty string) and its bytes in base64 form. -/
structure FileVal where
  mime : String
  content : String
deriving DecidableEq, Repr

/-- A non-null `formData.get` result. -/
inductive FormValue where
  | file (f : FileVal)
  | str (s : String)
deriving DecidableEq, Repr

/-- One element of `response.candidates[0].content.parts`, reduced to
the two fields the handler reads: `inlineData?.data` and
`inlineData?.mimeType` (`none` covers both a missing `inlineData` and
a missing field). -/
structure GeminiPart where
  data : Option String
  mimeType : Option String
deriving DecidableEq, Repr

/-- Outcome of the remainder of the `try` block once validation has
passed. -/
inductive GeminiOutcome where
  | parts (ps : List GeminiPart)
  | noCandidates
  | throws (msg : String)
deriving DecidableEq, Repr

/-- The handler environment: the four form fields, the
`GEMINI_API_KEY` binding (absent, or a possibly empty string), and the
outcome of the Gemini interaction. -/
structure GenEnv where
  userImage : Option FormValue
  productImage1 : Option FormValue
  productImage2 : Option FormValue
  prompt : Option FormValue
  geminiApiKey : Option String
  gemini : GeminiOutcome
deriving DecidableEq, Repr

/-- `!x || !(x instanceof File)` negated: the check passes only for a
`File` value (any `File` object is truthy). -/
def isFile : Option FormValue → Bool
  | some (FormValue.file _) => true
  | _ => false

/-- `!prompt || typeof prompt !== "string"` negated: passes only for a
non-empty string (the empty string is falsy in JS). -/
def promptOk : Option FormValue → Bool
  | some (FormValue.str s) => s != ""
  | _ => false

/-- `!apiKey` negated for an optional string binding. -/
def strTruthy : Option String → Bool
  | some s => s != ""
  | none => false

/-- The loop over `parts` that keeps the first part whose
`inlineData?.data` is truthy. -/
def findImagePart (ps : List GeminiPart) : Option GeminiPart :=
  ps.find? (fun p =>
    match p.data with
    | some d => d != ""
    | none => false)

/-- `x || d` for the optional `mimeType` field. -/
def orDefault (s : Option String) (d : String) : String :=
  match s with
  | some v => if v = "" then d else v
  | none => d

/-- The handler: status code and JSON body as an ordered field list.
The four validations run in source order before anything contacts the
Gemini API; afterwards the Gemini outcome decides between the catch
body, the two no-image bodies, and the success body. -/
def generateHandler (e : GenEnv) : Nat × List (String × String) :=
  if !(isFile e.userImage) then (400, [("error", "User image is required")])
  else if !(isFile e.productImage1) then
    (400, [("error", "At least one product image is required")])
  else if !(promptOk e.prompt) then (400, [("error", "Prompt text is required")])
  else if !(strTruthy e.geminiApiKey) then (500, [("error", "Gemini API key not configured")])
  else
    match e.gemini with
    | GeminiOutcome.throws msg =>
      (500, [("error", "Failed to generate image"), ("details", msg)])
    | GeminiOutcome.noCandidates => (500, [("error", "No image generated in response")])
    | GeminiOutcome.parts ps =>
      match findImagePart ps with
      | none => (500, [("error", "No image data found in response")])
      | some p =>
        (200, [("generatedImage", p.data.getD ""),
               ("mimeType", orDefault p.mimeType "image/png")])

/-- The error body shape the spec allows when the `error` field is a
string: exactly the one top-level field `error`.  (The nested
`\x7b error: \x7b status, code, message \x7d \x7d` form is an object-valued
`error` field; it too has `error` as its only top-level key, so a body
with a sibling key satisfies neither form.) -/
def specErrorShape (body : List (String × String)) : Bool :=
  body.map Prod.fst == ["error"]

/-- Catch branch of POST /api/vision/analyze (vision.ts):
`c.json(\x7b error: "Failed to analyze image", details \x7d, 500)`. -/
def analyzeCatchBody (details : String) : List (String × String) :=
  [("error", "Failed to analyze image"), ("details", details)]

/-- A run in which validation passes, the key is set, and the Gemini
call throws - driving the handler into its catch branch. -/
def geminiFailureEnv : GenEnv :=
  { userImage := some (FormValue.file ⟨"image/jpeg", "dXNlcg=="⟩),
    productImage1 := some (FormValue.file ⟨"image/png", "cHJvZA=="⟩),
    productImage2 := none,
    prompt := some (FormValue.str "Add white blinds to the windows"),
    geminiApiKey := some "AIzaTestKey",
    gemini := GeminiOutcome.throws "fetch failed" }

end NanoBanana

namespace WorkerApp

/-! ### The worker Hono app (src/worker/index.ts)

The app mounts the products, discovery, chat and nano-banana
sub-routers under /api/ and serves GET /api/ itself; a request
matching no registered route falls through to the Hono default
not-found handler, a 404 text response.  Only the GET routes are
static; the single POST route, /api/nano-banana/generate, is the
handler modelled in the NanoBanana namespace. -/

/-- A response body: JSON with ordered fields, or plain text. -/
inductive Body where
  | json (fields : List (String × String))
  | text (s : String)
deriving DecidableEq, Repr

/-- Dispatch of a GET request by path against the registered routes. -/
def appRespondGet (path : String) : Nat × Body :=
  if path = "/api/products/" then (200, Body.json [("message", "So many products!")])
  else if path = "/api/discovery/" then (200, Body.json [("message", "Lets discover!")])
  else if path = "/api/chat/" then (200, Body.json [("message", "Lets chat!")])
  else if path = "/api/" then (200, Body.json [("name", "Goto Demo API")])
  else (404, Body.text "404 Not Found")

/-- Modelled from the spec: the external documented API - the server
behind the integration guide, which this repository does not implement -
serves GET /health with no authentication headers and responds with the
JSON body `\x7b status: "ok" \x7d`. -/
def externalApiHealth : Nat × Body := (200, Body.json [("status", "ok")])

end WorkerApp

namespace Frontend

/-! ### The frontend multipart builder `api.generateImage`
(src/react-app/services/api.ts)

`generateImage` appends `userImage`, then `productImages[0]` as
`productImage1`, then - only when `productImages[1]` is present (a
`File` is always truthy) - `productImage2`, then the `prompt` string.
The unconditional read of `productImages[0]` makes a non-empty
`productImages` the precondition of the call; under it the access is
in bounds. -/

/-- A part appended to the `FormData`. -/
inductive FormPart where
  | file (mime : String) (content : String)
  | str (s : String)
deriving DecidableEq, Repr

/-- The `FormData` built by `api.generateImage`, as the ordered list of
appended (name, part) pairs. -/
def generateImageForm (userImage : FormPart) (productImages : List FormPart)
    (prompt : String) (h : productImages ≠ []) : List (String × FormPart) :=
  [("userImage", userImage), ("productImage1", productImages.head h)] ++
  (match productImages[1]? with
   | some p => [("productImage2", p)]
   | none => []) ++
  [("prompt", FormPart.str prompt)]

/-- Sample user image for concrete instantiations. -/
def sampleUser : FormPart := FormPart.file "image/jpeg" "dXNlcg=="

/-- Sample one-element product image list. -/
def sampleProducts : List FormPart := [FormPart.file "image/png" "cHJvZA=="]

/-- The sample list is non-empty. -/
def sampleProductsNe : sampleProducts ≠ [] := by decide

end Frontend

open Frontend Guide Sse NanoBanana WorkerApp

/-! ## Claims -/

/-- Claim C1, as stated, is false: the services-layer `request` helper
does throw for a non-2xx status.  At the concrete 500 response it
raises an `ApiError` instead of returning the raw status and body. -/
theorem C1_counterexample :
    throwsError (request ⟨500, "Internal Server Error"⟩) = true := by decide

/-- Claim C1 (amended): the `request` helper throws an `ApiError`
carrying the raw status and body text for every non-2xx response, and
returns the parsed body for every 2xx response; only connection-level
`fetch` rejections propagate as anything else. -/
theorem C1_request_throws_apiError_on_non2xx (res : FetchResponse) :
    (resOk res = false → request res = Except.error ⟨res.status, res.bodyText⟩) ∧
    (resOk res = true → request res = Except.ok res.bodyText) := by
  constructor <;> intro h <;> simp [request, h]

/-- Witness for C1 at the concrete 500 and 200 responses. -/
theorem C1_request_throws_apiError_on_non2xx_witness :
    request ⟨500, "boom"⟩ = Except.error ⟨500, "boom"⟩ ∧
    request ⟨200, "\x7b\x7d"⟩ = Except.ok "\x7b\x7d" :=
  ⟨(C1_request_throws_apiError_on_non2xx ⟨500, "boom"⟩).1 (by decide),
   (C1_request_throws_apiError_on_non2xx ⟨200, "\x7b\x7d"⟩).2 (by decide)⟩

/-- Claim C2, as stated, is false: with the 503-503-200 transport the
sleeps of `makeRequest` are not `baseDelayMs, 2*baseDelayMs` (1000 and
2000 ms with the literal 1000 ms base). -/
theorem C2_counterexample :
    ¬ (makeRequest t503then200).delays = [1000, 2000] := by decide

/-- Claim C2 (amended): the delay before attempt k (1-indexed, k >= 2)
is `baseDelayMs * 2^(k-1)` - the loop increments `attempt` before
computing `Math.pow(2, attempt)` - so the 503-503-200 run succeeds
after 3 attempts with sleeps 2000 and 4000 ms; and after `maxAttempts`
attempts that all fail with 5xx the function sleeps once more (8000 ms)
and returns `undefined` rather than the last classified error. -/
theorem C2_backoff_doubles_and_5xx_exhaustion_returns_undefined :
    makeRequest t503then200 = ⟨RunResult.success 200, [2000, 4000], 3⟩ ∧
    makeRequest tAlways503 = ⟨RunResult.undefinedReturn, [2000, 4000, 8000], 3⟩ ∧
    (∀ k : Nat, 2 ≤ k → k ≤ 3 →
      (makeRequest tAlways503).delays[k - 2]? = some (1000 * 2 ^ (k - 1))) := by
  refine ⟨by decide, by decide, ?_⟩
  intro k h2 h3
  interval_cases k <;> decide

/-- Witness for C2 at k = 2: the delay before the second attempt is
2000 ms. -/
theorem C2_backoff_doubles_and_5xx_exhaustion_returns_undefined_witness :
    (makeRequest tAlways503).delays[0]? = some (1000 * 2 ^ 1) :=
  C2_backoff_doubles_and_5xx_exhaustion_returns_undefined.2.2 2 (by decide) (by decide)

/-- Claim C3 names a real code bug: the guide comments the 401/403 and
4xx branches `do not retry`, but both throw inside the `try` whose own
`catch` retries every caught error until the final attempt.  A
transport answering 401 on every call is fetched three times with
backoff sleeps of 2000 and 4000 ms before the error propagates, and
likewise for a 400 response. -/
theorem C3_auth_and_client_errors_are_retried :
    makeRequest tAlways401 = ⟨RunResult.thrown "Authentication failed", [2000, 4000], 3⟩ ∧
    makeRequest tAlways400 = ⟨RunResult.thrown "Invalid request body", [2000, 4000], 3⟩ :=
  ⟨by decide, by decide⟩

/-- Claim C4, as stated, is false: when the `end` frame arrives split
after four bytes, the decode loop emits no event at all rather than
exactly one. -/
theorem C4_counterexample :
    ¬ streamChatDecode [endFragA, endFragB] = ⟨[StreamEvent.streamEnd], false⟩ := by decide

/-- Claim C4 (amended): the guide decoder parses each network read
independently with no carry-over buffer.  A frame contained in one
read yields its one event; the same frame split inside the `data: `
marker yields no event (both fragments fail the marker test); split
inside the JSON payload it raises a parse exception that aborts the
loop. -/
theorem C4_decoder_does_not_buffer_partial_frames :
    streamChatDecode [sseEndFrame] = ⟨[StreamEvent.streamEnd], false⟩ ∧
    endFragA ++ endFragB = sseEndFrame ∧
    streamChatDecode [endFragA, endFragB] = ⟨[], false⟩ ∧
    endFragC ++ endFragD = sseEndFrame ∧
    streamChatDecode [endFragC, endFragD] = ⟨[], true⟩ :=
  ⟨by decide, by decide, by decide, by decide, by decide⟩

/-- Claim C5, as stated, is false: the headers dispatched by the
services-layer `request` helper for a call without options (every
`api.main` / `api.products` / `api.discovery` / `api.chat` call)
contain neither `x-api-key` nor `x-tenant-id`. -/
theorem C5_counterexample :
    (dispatchedHeaders none).any
      (fun p => p.1 == "x-api-key" || p.1 == "x-tenant-id") = false := by decide

/-- Claim C5 (amended): the frontend client never attaches credential
headers - its default header set is exactly `Content-Type:
application/json` - while the credentials-first merge the spec
describes appears only in the integration-guide samples for the
external API, whose header object lists `x-api-key`, `x-tenant-id`,
`Content-Type` in that order. -/
theorem C5_frontend_omits_credential_headers :
    dispatchedHeaders none = [("Content-Type", "application/json")] ∧
    (∀ o : RequestOptions, o.headers = none →
      dispatchedHeaders (some o) = [("Content-Type", "application/json")]) ∧
    (∀ apiKey tenantId : String,
      (guideHeaders apiKey tenantId).map Prod.fst =
        ["x-api-key", "x-tenant-id", "Content-Type"]) := by
  refine ⟨rfl, ?_, ?_⟩
  · intro o h
    simp [dispatchedHeaders, h, objSpread, defaultHeaders]
  · intro apiKey tenantId
    rfl

/-- Witness for C5 at an options object without a headers key. -/
theorem C5_frontend_omits_credential_headers_witness :
    dispatchedHeaders (some ⟨none⟩) = [("Content-Type", "application/json")] :=
  C5_frontend_omits_credential_headers.2.1 ⟨none⟩ rfl

/-- Claim C6, as stated, is false: the catch branch of the generate
handler produces a 500 body whose top-level keys are `error` and a
sibling `details`, matching neither allowed shape. -/
theorem C6_counterexample :
    (generateHandler geminiFailureEnv).1 = 500 ∧
    specErrorShape (generateHandler geminiFailureEnv).2 = false :=
  ⟨by decide, by decide⟩

/-- Claim C6 (amended): every non-2xx response of the generate handler
carries an `error` field first, and the catch branches of the generate
and analyze handlers additionally carry a sibling `details` field, so
the error body shapes are `\x7b error \x7d` and `\x7b error, details \x7d`. -/
theorem C6_error_bodies_carry_error_and_optional_details :
    (∀ e : GenEnv, (generateHandler e).1 = 200 ∨
      (generateHandler e).2.map Prod.fst = ["error"] ∨
      (generateHandler e).2.map Prod.fst = ["error", "details"]) ∧
    (∀ d : String, (analyzeCatchBody d).map Prod.fst = ["error", "details"]) := by
  constructor
  · intro e
    unfold generateHandler
    repeat' split
    all_goals simp
  · intro d
    rfl

/-- Claim C7, as stated, is false against the repository worker: its
app registers no /health route, so a GET /health does not produce the
`\x7b status: "ok" \x7d` body. -/
theorem C7_counterexample :
    ¬ (appRespondGet "/health") = (200, Body.json [("status", "ok")]) := by decide

/-- Claim C7 (amended): GET /health belongs to the documented external
API, which answers `\x7b status: "ok" \x7d` without auth; the worker app
of this repository has no /health route and falls through to its 404
handler for that path. -/
theorem C7_health_served_only_by_external_api :
    appRespondGet "/health" = (404, Body.text "404 Not Found") ∧
    externalApiHealth = (200, Body.json [("status", "ok")]) :=
  ⟨by decide, rfl⟩

/-- Claim C8: in the `request` helper the `...options` spread follows
the `headers` property, so the default `Content-Type` survives exactly
when the caller supplies no headers key; a caller-supplied headers
object replaces the merged headers wholesale, and when it lacks
`Content-Type` the dispatched request carries no `Content-Type`. -/
theorem C8_spread_after_headers_overrides_defaults :
    dispatchedHeaders none = defaultHeaders ∧
    (∀ o : RequestOptions, o.headers = none → dispatchedHeaders (some o) = defaultHeaders) ∧
    (∀ (o : RequestOptions) (hs : Obj), o.headers = some hs →
      dispatchedHeaders (some o) = hs ∧
      (hs.all (fun p => !(p.1 == "Content-Type")) = true →
        (dispatchedHeaders (some o)).all (fun p => !(p.1 == "Content-Type")) = true)) := by
  refine ⟨rfl, ?_, ?_⟩
  · intro o h
    simp [dispatchedHeaders, h, objSpread]
  · intro o hs h
    have hd : dispatchedHeaders (some o) = hs := by simp [dispatchedHeaders, h]
    exact ⟨hd, fun hall => by rw [hd]; exact hall⟩

/-- Witness for C8 at a caller-supplied headers object without
`Content-Type` and at an options object without headers. -/
theorem C8_spread_after_headers_overrides_defaults_witness :
    dispatchedHeaders (some ⟨some [("Accept", "text/event-stream")]⟩) =
      [("Accept", "text/event-stream")] ∧
    (dispatchedHeaders (some ⟨some [("Accept", "text/event-stream")]⟩)).all
      (fun p => !(p.1 == "Content-Type")) = true ∧
    dispatchedHeaders (some ⟨none⟩) = defaultHeaders :=
  ⟨(C8_spread_after_headers_overrides_defaults.2.2
      ⟨some [("Accept", "text/event-stream")]⟩ [("Accept", "text/event-stream")] rfl).1,
   (C8_spread_after_headers_overrides_defaults.2.2
      ⟨some [("Accept", "text/event-stream")]⟩ [("Accept", "text/event-stream")] rfl).2
      (by decide),
   C8_spread_after_headers_overrides_defaults.2.1 ⟨none⟩ rfl⟩

/-- Claim C9: the generate handler validates the user image, first
product image, prompt and API key in that order, each failure
answering locally with the stated status and body independently of the
Gemini outcome; a later exception lands in the catch branch with a 500
JSON body carrying an `error` field; and every response is either a
200 or carries an `error` field. -/
theorem C9_generate_validation_order_and_totality :
    (∀ e : GenEnv, isFile e.userImage = false →
      generateHandler e = (400, [("error", "User image is required")])) ∧
    (∀ e : GenEnv, isFile e.userImage = true → isFile e.productImage1 = false →
      generateHandler e = (400, [("error", "At least one product image is required")])) ∧
    (∀ e : GenEnv, isFile e.userImage = true → isFile e.productImage1 = true →
      promptOk e.prompt = false →
      generateHandler e = (400, [("error", "Prompt text is required")])) ∧
    (∀ e : GenEnv, isFile e.userImage = true → isFile e.productImage1 = true →
      promptOk e.prompt = true → strTruthy e.geminiApiKey = false →
      generateHandler e = (500, [("error", "Gemini API key not configured")])) ∧
    (∀ (e : GenEnv) (g g' : GeminiOutcome),
      (isFile e.userImage = false ∨ isFile e.productImage1 = false ∨
        promptOk e.prompt = false ∨ strTruthy e.geminiApiKey = false) →
      generateHandler { e with gemini := g } = generateHandler { e with gemini := g' }) ∧
    (∀ (e : GenEnv) (msg : String), e.gemini = GeminiOutcome.throws msg →
      isFile e.userImage = true → isFile e.productImage1 = true →
      promptOk e.prompt = true → strTruthy e.geminiApiKey = true →
      generateHandler e = (500, [("error", "Failed to generate image"), ("details", msg)])) ∧
    (∀ e : GenEnv, (generateHandler e).1 = 200 ∨
      (generateHandler e).2.any (fun p => p.1 == "error") = true) := by
  refine ⟨?_, ?_, ?_, ?_, ?_, ?_, ?_⟩
  · intro e h
    simp [generateHandler, h]
  · intro e h1 h2
    simp [generateHandler, h1, h2]
  · intro e h1 h2 h3
    simp [generateHandler, h1, h2, h3]
  · intro e h1 h2 h3 h4
    simp [generateHandler, h1, h2, h3, h4]
  · intro e g g' h
    rcases h with h | h | h | h <;> simp [generateHandler, h]
  · intro e msg hg h1 h2 h3 h4
    simp [generateHandler, h1, h2, h3, h4, hg]
  · intro e
    unfold generateHandler
    repeat' split
    all_goals simp

/-- Witness for C9 at concrete environments: a form with no user image
is rejected locally, and a Gemini exception lands in the catch body. -/
theorem C9_generate_validation_order_and_totality_witness :
    generateHandler { geminiFailureEnv with userImage := none } =
      (400, [("error", "User image is required")]) ∧
    generateHandler geminiFailureEnv =
      (500, [("error", "Failed to generate image"), ("details", "fetch failed")]) :=
  ⟨C9_generate_validation_order_and_totality.1
      { geminiFailureEnv with userImage := none } (by decide),
   C9_generate_validation_order_and_totality.2.2.2.2.2.1
      geminiFailureEnv "fetch failed" rfl (by decide) (by decide) (by decide) (by decide)⟩

/-- Claim C10: under the precondition that `productImages` is
non-empty, the form built by `api.generateImage` always contains the
`userImage`, `productImage1` and `prompt` parts, and contains a
`productImage2` part exactly when `productImages` has a second
element. -/
theorem C10_generateImage_form_parts (u : FormPart) (ps : List FormPart) (pr : String)
    (h : ps ≠ []) :
    ("userImage", u) ∈ generateImageForm u ps pr h ∧
    ("productImage1", ps.head h) ∈ generateImageForm u ps pr h ∧
    ("prompt", FormPart.str pr) ∈ generateImageForm u ps pr h ∧
    ((generateImageForm u ps pr h).any (fun q => q.1 == "productImage2") =
      decide (2 ≤ ps.length)) := by
  match ps, h with
  | a :: t, _ =>
    cases t with
    | nil => refine ⟨?_, ?_, ?_, ?_⟩ <;> simp [generateImageForm]
    | cons b t2 => refine ⟨?_, ?_, ?_, ?_⟩ <;> simp [generateImageForm]

/-- Witness for C10 at a concrete single-product call. -/
theorem C10_generateImage_form_parts_witness :
    ("userImage", sampleUser) ∈
      generateImageForm sampleUser sampleProducts "Add blinds" sampleProductsNe ∧
    ("productImage1", sampleProducts.head sampleProductsNe) ∈
      generateImageForm sampleUser sampleProducts "Add blinds" sampleProductsNe ∧
    ("prompt", FormPart.str "Add blinds") ∈
      generateImageForm sampleUser sampleProducts "Add blinds" sampleProductsNe ∧
    ((generateImageForm sampleUser sampleProducts "Add blinds" sampleProductsNe).any
      (fun q => q.1 == "productImage2") = decide (2 ≤ sampleProducts.length)) :=
  C10_generateImage_form_parts sampleUser sampleProducts "Add blinds" sampleProductsNe
